import Mathlib

/-!
Shallow embedding of the CHIP-8 machine core from `src/c8.c` / `src/c8.h`
(repository t1meshift/c8).

Machine integers are modelled as `Nat` with explicit truncation where the C
code stores into a fixed-width field: `u8` for `uint8_t` stores, `u16` for
`uint16_t` stores.  Byte buffers (`memory`, `display`), the 16-entry register
file `v`, the 16-entry `stack` and the 4-byte PRNG state are modelled as total
functions `Nat -> Nat`; the C code only ever addresses the in-range part.
Sequential C statements become sequential `Function.update`s / record updates,
so read-after-write order (in particular the order in which `vF` and `v[x]`
are written) is preserved exactly.
-/

namespace C8

/-- Truncation to an unsigned 8-bit value, as performed by a store into a
`uint8_t` field. -/
def u8 (n : Nat) : Nat := n % 256

/-- Truncation to an unsigned 16-bit value, as performed by a store into a
`uint16_t` field. -/
def u16 (n : Nat) : Nat := n % 65536

/-- Quirk bit `C8_QUIRK_SHIFT = 1 << 0` from `src/c8.h`. -/
def C8_QUIRK_SHIFT : Nat := 1

/-- Quirk bit `C8_QUIRK_LOAD_STORE_INC_I_BY_X = 1 << 1` from `src/c8.h`. -/
def C8_QUIRK_LOAD_STORE_INC_I_BY_X : Nat := 2

/-- Quirk bit `C8_QUIRK_LOAD_STORE_NO_INC_I = 1 << 2` from `src/c8.h`. -/
def C8_QUIRK_LOAD_STORE_NO_INC_I : Nat := 4

/-- Quirk bit `C8_QUIRK_WRAP_SPRITES = 1 << 3` from `src/c8.h`. -/
def C8_QUIRK_WRAP_SPRITES : Nat := 8

/-- Quirk bit `C8_QUIRK_BXNN_JUMP = 1 << 4` from `src/c8.h`. -/
def C8_QUIRK_BXNN_JUMP : Nat := 16

/-- Quirk bit `C8_QUIRK_VBLANK = 1 << 5` from `src/c8.h`. -/
def C8_QUIRK_VBLANK : Nat := 32

/-- Quirk bit `C8_QUIRK_VF_RESET = 1 << 6` from `src/c8.h`. -/
def C8_QUIRK_VF_RESET : Nat := 64

/-- `C8_PC_ON_FAULT = 0x0` from `src/c8.c`. -/
def C8_PC_ON_FAULT : Nat := 0

/-- `C8_MEM_FONT_OFFSET = 0x50` from `src/c8.c`. -/
def C8_MEM_FONT_OFFSET : Nat := 0x50

/-- The two bytes of `C8_FAULT_HANDLER` from `src/c8.c`:
`0x10 | ((C8_PC_ON_FAULT & 0x0F00) >> 8)` and `C8_PC_ON_FAULT & 0xFF`,
i.e. the instruction `1nnn` jumping to the fault address itself. -/
def C8_FAULT_HANDLER : List Nat :=
  [0x10 ||| ((C8_PC_ON_FAULT &&& 0x0F00) >>> 8), C8_PC_ON_FAULT &&& 0xFF]

/-- The 80-byte font table `C8_FONT` from `src/c8.c`. -/
def C8_FONT : List Nat :=
  [0xF0, 0x90, 0x90, 0x90, 0xF0,
   0x20, 0x60, 0x20, 0x20, 0x70,
   0xF0, 0x10, 0xF0, 0x80, 0xF0,
   0xF0, 0x10, 0xF0, 0x10, 0xF0,
   0x90, 0x90, 0xF0, 0x10, 0x10,
   0xF0, 0x80, 0xF0, 0x10, 0xF0,
   0xF0, 0x80, 0xF0, 0x90, 0xF0,
   0xF0, 0x10, 0x20, 0x40, 0x40,
   0xF0, 0x90, 0xF0, 0x90, 0xF0,
   0xF0, 0x90, 0xF0, 0x10, 0xF0,
   0xF0, 0x90, 0xF0, 0x90, 0x90,
   0xE0, 0x90, 0xE0, 0x90, 0xE0,
   0xF0, 0x80, 0x80, 0x80, 0xF0,
   0xE0, 0x90, 0x90, 0x90, 0xE0,
   0xF0, 0x80, 0xF0, 0x80, 0xF0,
   0xF0, 0x80, 0xF0, 0x80, 0x80]

/-- `c8_machine_config` from `src/c8.h` (the handler chain is passed
separately to `c8_step`, see below; all other fields are plain integers). -/
structure MachineConfig where
  quirks : Nat
  memory_size : Nat
  cycles_per_frame : Nat
  screen_width : Nat
  screen_height : Nat
deriving DecidableEq

/-- `c8_registers` from `src/c8.h`.  `stack` holds the 16 `uint16_t` entries
(indices 0..15 are the C array), `v` the 16 `uint8_t` registers. -/
structure Registers where
  stack : Nat → Nat
  v : Nat → Nat
  pc : Nat
  i : Nat
  sp : Nat
  dt : Nat
  st : Nat

/-- `struct c8_state` from `src/c8.c`: config, registers, pressed keys,
memory bytes, display bytes (one byte per pixel), the 4 PRNG bytes
(`rng.b[0..3]`), and the vblank budget.  The `float delta_time` field is
not modelled (no claim mentions it). -/
structure State where
  config : MachineConfig
  registers : Registers
  pressed_keys : Nat → Bool
  memory : Nat → Nat
  display : Nat → Nat
  rng : Nat → Nat
  vblank : Nat

/-- `0nnn - SYS nnn` (`c8_op_sys`): only advances `pc`. -/
def c8_op_sys (s : State) (_nnn : Nat) : State :=
  { s with registers := { s.registers with pc := u16 (s.registers.pc + 2) } }

/-- `00E0 - CLS` (`c8_op_cls`): `memset(display, 0, width*height)` and
advance `pc`. -/
def c8_op_cls (s : State) : State :=
  { s with
    display := fun p =>
      if p < s.config.screen_width * s.config.screen_height then 0 else s.display p,
    registers := { s.registers with pc := u16 (s.registers.pc + 2) } }

/-- `00EE - RET` (`c8_op_ret`).  Note the missing early return in the C code:
when `sp == 0` the assignment `pc = C8_PC_ON_FAULT` is immediately followed
by the unconditional pop, which decrements the `uint8_t` stack pointer with
wraparound (`0 -> 255`) and overwrites `pc` with `stack[255] + 2`. -/
def c8_op_ret (s : State) : State :=
  let r := s.registers
  let r := if r.sp = 0 then { r with pc := C8_PC_ON_FAULT } else r
  let sp' := u8 (r.sp + 255)
  { s with registers := { r with sp := sp', pc := u16 (r.stack sp' + 2) } }

/-- `1nnn - JP nnn` (`c8_op_jp_nnn`). -/
def c8_op_jp_nnn (s : State) (nnn : Nat) : State :=
  { s with registers := { s.registers with pc := u16 nnn } }

/-- `2nnn - CALL nnn` (`c8_op_call`).  Note the missing early return in the C
code: when `sp >= 16` the assignment `pc = C8_PC_ON_FAULT` is immediately
followed by the unconditional push (writing the just-faulted `pc` at
`stack[sp]`, which is out of bounds for `sp >= 16`), the `sp` increment, and
`pc = nnn`. -/
def c8_op_call (s : State) (nnn : Nat) : State :=
  let r := s.registers
  let r := if 16 ≤ r.sp then { r with pc := C8_PC_ON_FAULT } else r
  { s with registers :=
    { r with
      stack := Function.update r.stack r.sp r.pc,
      sp := u8 (r.sp + 1),
      pc := u16 nnn } }

/-- `3xnn - SE Vx, nn` (`c8_op_se_vx_nn`). -/
def c8_op_se_vx_nn (s : State) (x nn : Nat) : State :=
  { s with registers := { s.registers with
      pc := u16 (s.registers.pc + if s.registers.v x = nn then 4 else 2) } }

/-- `4xnn - SNE Vx, nn` (`c8_op_sne_vx_nn`). -/
def c8_op_sne_vx_nn (s : State) (x nn : Nat) : State :=
  { s with registers := { s.registers with
      pc := u16 (s.registers.pc + if s.registers.v x ≠ nn then 4 else 2) } }

/-- `5xy0 - SE Vx, Vy` (`c8_op_se_vx_vy`). -/
def c8_op_se_vx_vy (s : State) (x y : Nat) : State :=
  { s with registers := { s.registers with
      pc := u16 (s.registers.pc + if s.registers.v x = s.registers.v y then 4 else 2) } }

/-- `6xnn - LD Vx, nn` (`c8_op_ld_vx_nn`). -/
def c8_op_ld_vx_nn (s : State) (x nn : Nat) : State :=
  { s with registers := { s.registers with
      v := Function.update s.registers.v x (u8 nn),
      pc := u16 (s.registers.pc + 2) } }

/-- `7xnn - ADD Vx, nn` (`c8_op_add_vx_nn`): no flag effect. -/
def c8_op_add_vx_nn (s : State) (x nn : Nat) : State :=
  { s with registers := { s.registers with
      v := Function.update s.registers.v x (u8 (s.registers.v x + nn)),
      pc := u16 (s.registers.pc + 2) } }

/-- `8xy0 - LD Vx, Vy` (`c8_op_ld_vx_vy`). -/
def c8_op_ld_vx_vy (s : State) (x y : Nat) : State :=
  { s with registers := { s.registers with
      v := Function.update s.registers.v x (s.registers.v y),
      pc := u16 (s.registers.pc + 2) } }

/-- `8xy1 - OR Vx, Vy` (`c8_op_or`): `v[x] |= v[y]`, then `v[0xF] = 0` iff
the VF-reset quirk is set. -/
def c8_op_or (s : State) (x y : Nat) : State :=
  let v := Function.update s.registers.v x (s.registers.v x ||| s.registers.v y)
  let v := if s.config.quirks &&& C8_QUIRK_VF_RESET ≠ 0 then Function.update v 0xF 0 else v
  { s with registers := { s.registers with v := v, pc := u16 (s.registers.pc + 2) } }

/-- `8xy2 - AND Vx, Vy` (`c8_op_and`). -/
def c8_op_and (s : State) (x y : Nat) : State :=
  let v := Function.update s.registers.v x (s.registers.v x &&& s.registers.v y)
  let v := if s.config.quirks &&& C8_QUIRK_VF_RESET ≠ 0 then Function.update v 0xF 0 else v
  { s with registers := { s.registers with v := v, pc := u16 (s.registers.pc + 2) } }

/-- `8xy3 - XOR Vx, Vy` (`c8_op_xor`). -/
def c8_op_xor (s : State) (x y : Nat) : State :=
  let v := Function.update s.registers.v x (s.registers.v x ^^^ s.registers.v y)
  let v := if s.config.quirks &&& C8_QUIRK_VF_RESET ≠ 0 then Function.update v 0xF 0 else v
  { s with registers := { s.registers with v := v, pc := u16 (s.registers.pc + 2) } }

/-- `8xy4 - ADD Vx, Vy` (`c8_op_add_vx_vy`).  The carry flag is written to
`v[0xF]` FIRST, then `v[x] += v[y]` is computed from the updated register
file (so for `x = 0xF` the sum reads the freshly written flag). -/
def c8_op_add_vx_vy (s : State) (x y : Nat) : State :=
  let v := Function.update s.registers.v 0xF
    (if 0xFF < s.registers.v x + s.registers.v y then 1 else 0)
  let v := Function.update v x (u8 (v x + v y))
  { s with registers := { s.registers with v := v, pc := u16 (s.registers.pc + 2) } }

/-- `8xy5 - SUB Vx, Vy` (`c8_op_sub`).  Borrow flag written first, then the
`uint8_t` subtraction `v[x] -= v[y]` (two's-complement wraparound). -/
def c8_op_sub (s : State) (x y : Nat) : State :=
  let v := Function.update s.registers.v 0xF
    (if s.registers.v y < s.registers.v x then 1 else 0)
  let v := Function.update v x (u8 (v x + 256 - u8 (v y)))
  { s with registers := { s.registers with v := v, pc := u16 (s.registers.pc + 2) } }

/-- `8xy6 - SHR Vx, Vy` (`c8_op_shr`): source is `v[x]` with the shift quirk,
`v[y]` without; `v[x]` gets the shifted value, then `v[0xF]` gets the
pre-shift LSB (flag written last). -/
def c8_op_shr (s : State) (x y : Nat) : State :=
  let hasShiftQuirk := s.config.quirks &&& C8_QUIRK_SHIFT ≠ 0
  let value := s.registers.v (if hasShiftQuirk then x else y)
  let v := Function.update s.registers.v x (value >>> 1)
  let v := Function.update v 0xF (value &&& 0x1)
  { s with registers := { s.registers with v := v, pc := u16 (s.registers.pc + 2) } }

/-- `8xy7 - SUBN Vx, Vy` (`c8_op_subn`).  Flag written first, then
`v[x] = v[y] - v[x]` as `uint8_t` arithmetic. -/
def c8_op_subn (s : State) (x y : Nat) : State :=
  let v := Function.update s.registers.v 0xF
    (if s.registers.v x < s.registers.v y then 1 else 0)
  let v := Function.update v x (u8 (v y + 256 - u8 (v x)))
  { s with registers := { s.registers with v := v, pc := u16 (s.registers.pc + 2) } }

/-- `8xyE - SHL Vx, Vy` (`c8_op_shl`): source per the shift quirk; `v[x]`
gets the shifted value truncated to a byte, then `v[0xF]` gets
`(value & 0x80) >> 7` (flag written last). -/
def c8_op_shl (s : State) (x y : Nat) : State :=
  let hasShiftQuirk := s.config.quirks &&& C8_QUIRK_SHIFT ≠ 0
  let value := s.registers.v (if hasShiftQuirk then x else y)
  let v := Function.update s.registers.v x (u8 (value <<< 1))
  let v := Function.update v 0xF ((value &&& 0x80) >>> 7)
  { s with registers := { s.registers with v := v, pc := u16 (s.registers.pc + 2) } }

/-- `9xy0 - SNE Vx, Vy` (`c8_op_sne_vx_vy`). -/
def c8_op_sne_vx_vy (s : State) (x y : Nat) : State :=
  { s with registers := { s.registers with
      pc := u16 (s.registers.pc + if s.registers.v x ≠ s.registers.v y then 4 else 2) } }

/-- `Annn - LD I, nnn` (`c8_op_ld_i_nnn`). -/
def c8_op_ld_i_nnn (s : State) (nnn : Nat) : State :=
  { s with registers := { s.registers with i := u16 nnn, pc := u16 (s.registers.pc + 2) } }

/-- `Bnnn - JP V0, nnn` (`c8_op_jp_v0_nnn`): jumps to `nnn + v[0]`, or to
`nnn + v[(nnn & 0xF00) >> 8]` with the BXNN quirk. -/
def c8_op_jp_v0_nnn (s : State) (nnn : Nat) : State :=
  let jpXNN := s.config.quirks &&& C8_QUIRK_BXNN_JUMP ≠ 0
  { s with registers := { s.registers with
      pc := u16 (nnn + s.registers.v (if jpXNN then (nnn &&& 0xF00) >>> 8 else 0)) } }

/-- `Cxnn - RND Vx, nn` (`c8_op_rnd`): the 4-byte xorshift step from
`src/c8.c` (the last line reads the freshly shifted `b[2]`, i.e. the old
`b[3]`), then `v[x] = b[3] & nn`. -/
def c8_op_rnd (s : State) (x nn : Nat) : State :=
  let b0 := u8 (s.rng 0)
  let b3 := u8 (s.rng 3)
  let t := b0 ^^^ (b0 >>> 1)
  let nb3 := u8 (b3 ^^^ t ^^^ (b3 >>> 3) ^^^ (t <<< 1))
  { s with
    rng := fun k =>
      if k = 0 then s.rng 1
      else if k = 1 then s.rng 2
      else if k = 2 then s.rng 3
      else if k = 3 then nb3
      else s.rng k,
    registers := { s.registers with
      v := Function.update s.registers.v x (nb3 &&& u8 nn),
      pc := u16 (s.registers.pc + 2) } }

/-- The pixel position written by loop iteration `(i, j)` of `c8_op_drw`:
`dy * screen_width + dx` with `dx = (px0 + j) % screen_width` and
`dy = (py0 + i) % screen_height`. -/
def c8_drw_pos (w h px0 py0 : Nat) (c : Nat × Nat) : Nat :=
  ((py0 + c.1) % h) * w + ((px0 + c.2) % w)

/-- The sprite bit read by loop iteration `(i, j)` of `c8_op_drw`:
`(sprite_byte >> (7 - j)) & 0x1` where `sprite_byte = memory[I + i]`
(the row pointer `sprite` is advanced once per outer iteration). -/
def c8_sprite_bit (mem : Nat → Nat) (iReg : Nat) (c : Nat × Nat) : Nat :=
  (u8 (mem (iReg + c.1)) >>> (7 - c.2)) &&& 0x1

/-- The loop iteration space of `c8_op_drw`: outer row index `i` over
`sprite_height`, inner column index `j` over `sprite_width`, in source
order. -/
def c8_drw_cells (sh sw : Nat) : List (Nat × Nat) :=
  (List.range sh).flatMap fun i => (List.range sw).map fun j => (i, j)

/-- The body of the double loop of `c8_op_drw`, folded over the iteration
space: carries the display buffer and the collision flag `v[0xF]`.  Each
iteration XORs the sprite bit into the display byte and raises the flag when
the (current) display byte is nonzero and the sprite bit is 1. -/
def c8_drw_loop (bit pos : Nat × Nat → Nat) (cells : List (Nat × Nat))
    (d : Nat → Nat) (vf : Nat) : (Nat → Nat) × Nat :=
  cells.foldl
    (fun acc c =>
      (Function.update acc.1 (pos c) (acc.1 (pos c) ^^^ bit c),
       if acc.1 (pos c) ≠ 0 ∧ bit c = 1 then 1 else acc.2))
    (d, vf)

/-- Clipped or wrapped sprite width of `c8_op_drw`:
`wrap_sprites ? 8 : C8_MIN(8, screen_width - px0)`. -/
def c8_drw_sw (quirks w px0 : Nat) : Nat :=
  if quirks &&& C8_QUIRK_WRAP_SPRITES ≠ 0 then 8 else min 8 (w - px0)

/-- Clipped or wrapped sprite height of `c8_op_drw`:
`wrap_sprites ? n : C8_MIN(n, screen_height - py0)`. -/
def c8_drw_sh (quirks h py0 n : Nat) : Nat :=
  if quirks &&& C8_QUIRK_WRAP_SPRITES ≠ 0 then n else min n (h - py0)

/-- The sprite-drawing core of `c8_op_drw` (everything after the vblank
gate): the final display buffer and collision flag obtained by folding the
double loop over the clipped/wrapped iteration space, with the collision
flag starting from the `v[0xF] = 0` reset. -/
def c8_drw_result (s : State) (x y n : Nat) : (Nat → Nat) × Nat :=
  let w := s.config.screen_width
  let h := s.config.screen_height
  let px0 := s.registers.v x % w
  let py0 := s.registers.v y % h
  let sw := c8_drw_sw s.config.quirks w px0
  let sh := c8_drw_sh s.config.quirks h py0 n
  c8_drw_loop (c8_sprite_bit s.memory s.registers.i)
    (c8_drw_pos w h px0 py0) (c8_drw_cells sh sw) s.display 0

/-- `Dxyn - DRW Vx, Vy, n` (`c8_op_drw`).  With the vblank quirk set and an
exhausted budget the function returns without touching any state (no `pc`
advance); otherwise the budget is decremented (quirk set only), the sprite
is XORed into the display with per-axis clipping or wrapping, `v[0xF]` is
zeroed then set to 1 on collision, and `pc` advances by 2. -/
def c8_op_drw (s : State) (x y n : Nat) : State :=
  let hasVblankQuirk := s.config.quirks &&& C8_QUIRK_VBLANK ≠ 0
  if hasVblankQuirk ∧ s.vblank = 0 then s
  else
    let s1 := if hasVblankQuirk then { s with vblank := s.vblank - 1 } else s
    let r := c8_drw_result s1 x y n
    { s1 with
      display := r.1,
      registers := { s1.registers with
        v := Function.update s1.registers.v 0xF r.2,
        pc := u16 (s1.registers.pc + 2) } }

/-- `Ex9E - SKP Vx` (`c8_op_skp`). -/
def c8_op_skp (s : State) (x : Nat) : State :=
  let key := s.registers.v x
  { s with registers := { s.registers with
      pc := u16 (s.registers.pc + if key ≤ 0xF ∧ s.pressed_keys key then 4 else 2) } }

/-- `ExA1 - SKNP Vx` (`c8_op_sknp`). -/
def c8_op_sknp (s : State) (x : Nat) : State :=
  let key := s.registers.v x
  { s with registers := { s.registers with
      pc := u16 (s.registers.pc + if ¬(key ≤ 0xF ∧ s.pressed_keys key) then 4 else 2) } }

/-- `Fx07 - LD Vx, DT` (`c8_op_ld_vx_dt`). -/
def c8_op_ld_vx_dt (s : State) (x : Nat) : State :=
  { s with registers := { s.registers with
      v := Function.update s.registers.v x (s.registers.dt),
      pc := u16 (s.registers.pc + 2) } }

/-- `Fx0A - LD Vx, KEY` (`c8_op_ld_vx_key`): scan keys 0..15 in order; at
the first pressed key store its index into `v[x]` and advance `pc`, then
stop.  When no key is pressed nothing is modified (the instruction will be
fetched again on the next step). -/
def c8_op_ld_vx_key (s : State) (x : Nat) : State :=
  match (List.range 16).find? (fun k => s.pressed_keys k) with
  | none => s
  | some k =>
    { s with registers := { s.registers with
        v := Function.update s.registers.v x k,
        pc := u16 (s.registers.pc + 2) } }

/-- `Fx15 - LD DT, Vx` (`c8_op_ld_dt_vx`). -/
def c8_op_ld_dt_vx (s : State) (x : Nat) : State :=
  { s with registers := { s.registers with
      dt := u8 (s.registers.v x), pc := u16 (s.registers.pc + 2) } }

/-- `Fx18 - LD ST, Vx` (`c8_op_ld_st_vx`). -/
def c8_op_ld_st_vx (s : State) (x : Nat) : State :=
  { s with registers := { s.registers with
      st := u8 (s.registers.v x), pc := u16 (s.registers.pc + 2) } }

/-- `Fx1E - ADD I, Vx` (`c8_op_add_i_vx`): `i += v[x]`, flag from the new
`i`, then `i &= 0xFFF`. -/
def c8_op_add_i_vx (s : State) (x : Nat) : State :=
  let i1 := u16 (s.registers.i + s.registers.v x)
  { s with registers := { s.registers with
      i := i1 &&& 0xFFF,
      v := Function.update s.registers.v 0xF (if 0x0FFF < i1 then 1 else 0),
      pc := u16 (s.registers.pc + 2) } }

/-- `Fx29 - LD I, FONT(Vx)` (`c8_op_ld_i_font_vx`). -/
def c8_op_ld_i_font_vx (s : State) (x : Nat) : State :=
  { s with registers := { s.registers with
      i := u16 (C8_MEM_FONT_OFFSET + (s.registers.v x &&& 0x0F) * 5),
      pc := u16 (s.registers.pc + 2) } }

/-- `Fx33 - BCD Vx` (`c8_op_bcd`): write the three decimal digits of `v[x]`
to `memory[i..i+2]`; `i` unchanged. -/
def c8_op_bcd (s : State) (x : Nat) : State :=
  let i := s.registers.i
  let vx := s.registers.v x
  let m := Function.update s.memory i (vx / 100 % 10)
  let m := Function.update m (i + 1) (vx / 10 % 10)
  let m := Function.update m (i + 2) (vx % 10)
  { s with
    memory := m,
    registers := { s.registers with pc := u16 (s.registers.pc + 2) } }

/-- The truncated transfer count used by `Fx55` and `Fx65`: when
`i + x >= memory_size` the `uint8_t` parameter `x` is reassigned
`memory_size - i - 1` (computed in `int`, then converted to `uint8_t`,
i.e. taken modulo 256, with negative values wrapping). -/
def c8_trunc_x (i mem_size x : Nat) : Nat :=
  if mem_size ≤ i + x then (((mem_size : Int) - (i : Int) - 1) % 256).toNat else x

/-- `Fx55 - LD [I], Vx` (`c8_op_ld_i_vx`): `memcpy(memory + i, v, x + 1)`
with the truncated count, then advance `i` per the two load/store quirks. -/
def c8_op_ld_i_vx (s : State) (x : Nat) : State :=
  let i := s.registers.i
  let x' := c8_trunc_x i s.config.memory_size x
  let m := fun a => if i ≤ a ∧ a ≤ i + x' then u8 (s.registers.v (a - i)) else s.memory a
  let shouldIncI := s.config.quirks &&& C8_QUIRK_LOAD_STORE_NO_INC_I = 0
  let incByX := s.config.quirks &&& C8_QUIRK_LOAD_STORE_INC_I_BY_X ≠ 0
  { s with
    memory := m,
    registers := { s.registers with
      i := if shouldIncI then u16 (i + x' + (if incByX then 0 else 1)) else i,
      pc := u16 (s.registers.pc + 2) } }

/-- `Fx65 - LD Vx, [I]` (`c8_op_ld_vx_i`): `memcpy(v, memory + i, x + 1)`
with the truncated count, then advance `i` per the two load/store quirks. -/
def c8_op_ld_vx_i (s : State) (x : Nat) : State :=
  let i := s.registers.i
  let x' := c8_trunc_x i s.config.memory_size x
  let v := fun k => if k ≤ x' then u8 (s.memory (i + k)) else s.registers.v k
  let shouldIncI := s.config.quirks &&& C8_QUIRK_LOAD_STORE_NO_INC_I = 0
  let incByX := s.config.quirks &&& C8_QUIRK_LOAD_STORE_INC_I_BY_X ≠ 0
  { s with registers := { s.registers with
      v := v,
      i := if shouldIncI then u16 (i + x' + (if incByX then 0 else 1)) else i,
      pc := u16 (s.registers.pc + 2) } }

/-- `c8_chip8_op_handler` from `src/c8.c`: the base instruction decoder.
Returns the handled flag `h` together with the resulting state; every
`default:` branch that leaves `h == false` is a `(false, s)` here. -/
def c8_chip8_op_handler (s : State) (op : Nat) : Bool × State :=
  let x := (op &&& 0x0F00) >>> 8
  let y := (op &&& 0x00F0) >>> 4
  if op &&& 0xF000 = 0x0000 then
    if op = 0x00E0 then (true, c8_op_cls s)
    else if op = 0x00EE then (true, c8_op_ret s)
    else (true, c8_op_sys s op)
  else if op &&& 0xF000 = 0x1000 then (true, c8_op_jp_nnn s (op &&& 0x0FFF))
  else if op &&& 0xF000 = 0x2000 then (true, c8_op_call s (op &&& 0x0FFF))
  else if op &&& 0xF000 = 0x3000 then (true, c8_op_se_vx_nn s x (op &&& 0x00FF))
  else if op &&& 0xF000 = 0x4000 then (true, c8_op_sne_vx_nn s x (op &&& 0x00FF))
  else if op &&& 0xF000 = 0x5000 then
    if op &&& 0x000F = 0 then (true, c8_op_se_vx_vy s x y) else (false, s)
  else if op &&& 0xF000 = 0x6000 then (true, c8_op_ld_vx_nn s x (op &&& 0x00FF))
  else if op &&& 0xF000 = 0x7000 then (true, c8_op_add_vx_nn s x (op &&& 0x00FF))
  else if op &&& 0xF000 = 0x8000 then
    if op &&& 0x000F = 0x0 then (true, c8_op_ld_vx_vy s x y)
    else if op &&& 0x000F = 0x1 then (true, c8_op_or s x y)
    else if op &&& 0x000F = 0x2 then (true, c8_op_and s x y)
    else if op &&& 0x000F = 0x3 then (true, c8_op_xor s x y)
    else if op &&& 0x000F = 0x4 then (true, c8_op_add_vx_vy s x y)
    else if op &&& 0x000F = 0x5 then (true, c8_op_sub s x y)
    else if op &&& 0x000F = 0x6 then (true, c8_op_shr s x y)
    else if op &&& 0x000F = 0x7 then (true, c8_op_subn s x y)
    else if op &&& 0x000F = 0xE then (true, c8_op_shl s x y)
    else (false, s)
  else if op &&& 0xF000 = 0x9000 then
    if op &&& 0x000F = 0 then (true, c8_op_sne_vx_vy s x y) else (false, s)
  else if op &&& 0xF000 = 0xA000 then (true, c8_op_ld_i_nnn s (op &&& 0x0FFF))
  else if op &&& 0xF000 = 0xB000 then (true, c8_op_jp_v0_nnn s (op &&& 0x0FFF))
  else if op &&& 0xF000 = 0xC000 then (true, c8_op_rnd s x (op &&& 0x00FF))
  else if op &&& 0xF000 = 0xD000 then (true, c8_op_drw s x y (op &&& 0x000F))
  else if op &&& 0xF000 = 0xE000 then
    if op &&& 0x00FF = 0x9E then (true, c8_op_skp s x)
    else if op &&& 0x00FF = 0xA1 then (true, c8_op_sknp s x)
    else (false, s)
  else if op &&& 0xF000 = 0xF000 then
    if op &&& 0x00FF = 0x07 then (true, c8_op_ld_vx_dt s x)
    else if op &&& 0x00FF = 0x0A then (true, c8_op_ld_vx_key s x)
    else if op &&& 0x00FF = 0x15 then (true, c8_op_ld_dt_vx s x)
    else if op &&& 0x00FF = 0x18 then (true, c8_op_ld_st_vx s x)
    else if op &&& 0x00FF = 0x1E then (true, c8_op_add_i_vx s x)
    else if op &&& 0x00FF = 0x29 then (true, c8_op_ld_i_font_vx s x)
    else if op &&& 0x00FF = 0x33 then (true, c8_op_bcd s x)
    else if op &&& 0x00FF = 0x55 then (true, c8_op_ld_i_vx s x)
    else if op &&& 0x00FF = 0x65 then (true, c8_op_ld_vx_i s x)
    else (false, s)
  else (false, s)

/-- The big-endian two-byte instruction fetch of `c8_step`:
`memory[pc] << 8 | memory[pc + 1]` (both operands are `uint8_t` reads). -/
def c8_fetch (s : State) : Nat :=
  (u8 (s.memory s.registers.pc) <<< 8) ||| u8 (s.memory (s.registers.pc + 1))

/-- The handler-chain walk of `c8_step`: run each handler in order on the
(possibly already mutated) state until one reports handled. -/
def c8_run_handlers (op : Nat) : List (State → Nat → Bool × State) → State → State
  | [], s => s
  | hd :: rest, s =>
    let r := hd s op
    if r.1 then r.2 else c8_run_handlers op rest r.2

/-- The fetch-and-dispatch part of `c8_step` over the default handler chain
`{c8_chip8_op_handler}` installed by `c8_get_default_machine_config`. -/
def c8_dispatch (s : State) : State :=
  c8_run_handlers (c8_fetch s) [c8_chip8_op_handler] s

/-- `c8_step` from `src/c8.c` over the default handler chain: fetch,
dispatch, then force `pc` to the fault address when
`pc >= config.memory_size`. -/
def c8_step (s : State) : State :=
  let s' := c8_dispatch s
  if s'.config.memory_size ≤ s'.registers.pc then
    { s' with registers := { s'.registers with pc := C8_PC_ON_FAULT } }
  else s'

/-- `c8_reset` from `src/c8.c`: zero the `memory_size`-byte memory, install
the 2-byte fault handler at address 0 and the 80-byte font at 0x50, zero the
`width*height`-byte display, clear the pressed keys, and set the registers
to their start values.  The PRNG bytes and the `vblank` field are not
touched. -/
def c8_reset (s : State) : State :=
  { s with
    memory := fun a =>
      if a < 2 then C8_FAULT_HANDLER.getD a 0
      else if C8_MEM_FONT_OFFSET ≤ a ∧ a < C8_MEM_FONT_OFFSET + 80 then
        C8_FONT.getD (a - C8_MEM_FONT_OFFSET) 0
      else if a < s.config.memory_size then 0
      else s.memory a,
    display := fun p =>
      if p < s.config.screen_width * s.config.screen_height then 0 else s.display p,
    pressed_keys := fun _ => false,
    registers :=
      { stack := fun _ => 0, v := fun _ => 0, pc := 0x200, i := 0, sp := 0, dt := 0, st := 0 } }

/-- The accumulated XOR of the sprite bits that the iteration space maps to
a given display position `p` (the net effect of one sprite draw at `p`). -/
def c8_drw_mask (bit pos : Nat × Nat → Nat) (cells : List (Nat × Nat)) (p : Nat) : Nat :=
  match cells with
  | [] => 0
  | c :: cs => (if pos c = p then bit c else 0) ^^^ c8_drw_mask bit pos cs p

/-- The instruction-word shapes that fall through every `default:` branch of
`c8_chip8_op_handler` (the base decoder reports them unhandled):
`5xyk` with `k` nonzero, `8xyk` with `k` outside `{0..7, 0xE}`, `9xyk` with
`k` nonzero, `Ex` with low byte outside `{9E, A1}`, and `Fx` with low byte
outside `{07, 0A, 15, 18, 1E, 29, 33, 55, 65}`. -/
def c8_unhandled_shape (op : Nat) : Prop :=
  (op &&& 0xF000 = 0x5000 ∧ op &&& 0x000F ≠ 0) ∨
  (op &&& 0xF000 = 0x8000 ∧ (op &&& 0x000F) ∉ ([0, 1, 2, 3, 4, 5, 6, 7, 0xE] : List Nat)) ∨
  (op &&& 0xF000 = 0x9000 ∧ op &&& 0x000F ≠ 0) ∨
  (op &&& 0xF000 = 0xE000 ∧ op &&& 0x00FF ≠ 0x9E ∧ op &&& 0x00FF ≠ 0xA1) ∨
  (op &&& 0xF000 = 0xF000 ∧
    (op &&& 0x00FF) ∉ ([0x07, 0x0A, 0x15, 0x18, 0x1E, 0x29, 0x33, 0x55, 0x65] : List Nat))

/-- The default machine configuration from `c8_get_default_machine_config`:
no quirks, 4096 bytes of memory, 15 cycles per frame, a 64 by 32 screen. -/
def cfgDefault : MachineConfig :=
  { quirks := 0, memory_size := 4096, cycles_per_frame := 15,
    screen_width := 64, screen_height := 32 }

/-- Freshly reset register values (`pc = 0x200`, everything else zero). -/
def regsInit : Registers :=
  { stack := fun _ => 0, v := fun _ => 0, pc := 0x200, i := 0, sp := 0, dt := 0, st := 0 }

/-- A concrete machine state with the default configuration, zeroed buffers
and freshly reset registers, used to instantiate witnesses and
counterexamples. -/
def stateInit : State :=
  { config := cfgDefault, registers := regsInit, pressed_keys := fun _ => false,
    memory := fun _ => 0, display := fun _ => 0, rng := fun _ => 0, vblank := 0 }

/-! ## Helper lemmas -/

/-- `List.find?` over `List.range n` returns the least index satisfying the
predicate (the order in which `c8_op_ld_vx_key` scans the keys). -/
theorem find_range_eq_some (p : Nat → Bool) (n k : Nat) (hk : k < n) (hpk : p k = true)
    (hmin : ∀ j, j < k → p j = false) : (List.range n).find? p = some k := by
  induction n with
  | zero => exact absurd hk (Nat.not_lt_zero k)
  | succ m ih =>
    rw [List.range_succ, List.find?_append]
    rcases Nat.lt_succ_iff_lt_or_eq.mp hk with h | h
    · rw [ih h]; rfl
    · subst h
      have hnone : (List.range k).find? p = none :=
        List.find?_eq_none.mpr fun x hx => by simp [hmin x (List.mem_range.mp hx)]
      rw [hnone, List.find?_cons_of_pos _ hpk]
      rfl

set_option maxRecDepth 4000 in
/-- Extracting bit 7 of a byte the way `c8_op_shl` does equals division by
128. -/
theorem byte_and_128_shr_7 : ∀ m, m < 256 → (m &&& 0x80) >>> 7 = m / 128 := by decide

/-- Adding a fixed offset and reducing modulo `n` is injective on
`[0, n)`. -/
theorem add_mod_inj (a n i j : Nat) (hi : i < n) (hj : j < n)
    (h : (a + i) % n = (a + j) % n) : i = j := by
  have h1 : i ≡ j [MOD n] := Nat.ModEq.add_left_cancel (Nat.ModEq.refl a) h
  have h2 : i % n = j % n := h1
  rwa [Nat.mod_eq_of_lt hi, Nat.mod_eq_of_lt hj] at h2

/-! ## Claims -/

/-- Claim C1: the spec asks for a short-circuiting fault (a 17th nested CALL
or a RET with `sp == 0` routes `pc` to 0x000 with no stack or `sp`
mutation), but both handlers in `src/c8.c` lack the early `return`: the
fault assignment to `pc` is a dead store.  Evaluated at the failing inputs:
a CALL of `0x300` with `sp = 16` ends with `pc = 0x300` (not 0x000),
`sp = 17`, and the (out-of-bounds) slot `stack[16]` overwritten; a RET with
`sp = 0` wraps `sp` to 255 and ends with `pc = stack[255] + 2` (not
0x000). -/
theorem c8_call_ret_fault_behavior :
    (c8_op_call { stateInit with registers := { regsInit with sp := 16 } } 0x300).registers.pc
        = 0x300 ∧
    (c8_op_call { stateInit with registers := { regsInit with sp := 16 } } 0x300).registers.pc
        ≠ C8_PC_ON_FAULT ∧
    (c8_op_call { stateInit with registers := { regsInit with sp := 16 } } 0x300).registers.sp
        = 17 ∧
    (c8_op_call { stateInit with registers := { regsInit with sp := 16 } } 0x300).registers.stack 16
        = 0 ∧
    (c8_op_ret { stateInit with registers :=
        { regsInit with stack := fun k => if k = 255 then 0xABC else 0 } }).registers.pc
        = 0xABE ∧
    (c8_op_ret { stateInit with registers :=
        { regsInit with stack := fun k => if k = 255 then 0xABC else 0 } }).registers.pc
        ≠ C8_PC_ON_FAULT ∧
    (c8_op_ret { stateInit with registers :=
        { regsInit with stack := fun k => if k = 255 then 0xABC else 0 } }).registers.sp
        = 255 := by
  decide

/-- Claim C7 counterexample: with `x = 0xF` the carry flag written by
`8xy4` is immediately clobbered: starting from `v[0xF] = 200`,
`v[0] = 100` (a carrying sum, so the claim demands `VF = 1`), the add
leaves `v[0xF] = 101` (the flag 1 plus `v[0]`), not 1. -/
theorem c8_arith_vf_counterexample :
    (0xFF : Nat) < 200 + 100 ∧
    (c8_op_add_vx_vy { stateInit with registers := { regsInit with
        v := fun k => if k = 15 then 200 else if k = 0 then 100 else 0 } } 15 0).registers.v 0xF
      = 101 ∧
    (c8_op_add_vx_vy { stateInit with registers := { regsInit with
        v := fun k => if k = 15 then 200 else if k = 0 then 100 else 0 } } 15 0).registers.v 0xF
      ≠ 1 := by
  decide

/-- Claim C7 (amended: for `x ≠ 0xF`): after `8xy4` the flag is 1 exactly
when the 8-bit sum carried; after `8xy5` exactly when the pre-instruction
`v[x]` exceeds `v[y]`; after `8xy7` exactly when `v[y]` exceeds `v[x]`. -/
theorem c8_arith_vf_flags (s : State) (x y : Nat) (hx : x ≠ 0xF) :
    ((c8_op_add_vx_vy s x y).registers.v 0xF =
      if 0xFF < s.registers.v x + s.registers.v y then 1 else 0) ∧
    ((c8_op_sub s x y).registers.v 0xF =
      if s.registers.v y < s.registers.v x then 1 else 0) ∧
    ((c8_op_subn s x y).registers.v 0xF =
      if s.registers.v x < s.registers.v y then 1 else 0) := by
  have hx' : (0xF : Nat) ≠ x := Ne.symm hx
  refine ⟨?_, ?_, ?_⟩ <;>
    simp [c8_op_add_vx_vy, c8_op_sub, c8_op_subn,
      Function.update_noteq hx', Function.update_same]

/-- Witness for `c8_arith_vf_flags` at `stateInit`, `x = 0`, `y = 1`. -/
theorem c8_arith_vf_flags_witness :
    ((c8_op_add_vx_vy stateInit 0 1).registers.v 0xF =
      if 0xFF < stateInit.registers.v 0 + stateInit.registers.v 1 then 1 else 0) ∧
    ((c8_op_sub stateInit 0 1).registers.v 0xF =
      if stateInit.registers.v 1 < stateInit.registers.v 0 then 1 else 0) ∧
    ((c8_op_subn stateInit 0 1).registers.v 0xF =
      if stateInit.registers.v 0 < stateInit.registers.v 1 then 1 else 0) :=
  c8_arith_vf_flags stateInit 0 1 (by decide)

/-- Claim C5 counterexample: with the VF-reset quirk disabled and
`x = 0xF`, `8xy1` does NOT leave `VF` untouched: from `v[0xF] = 0`,
`v[0] = 1`, `OR V15, V0` ends with `v[0xF] = 1`. -/
theorem c8_logic_vf_counterexample :
    ({ stateInit with registers := { regsInit with
        v := fun k => if k = 0 then 1 else 0 } } : State).config.quirks
      &&& C8_QUIRK_VF_RESET = 0 ∧
    ({ stateInit with registers := { regsInit with
        v := fun k => if k = 0 then 1 else 0 } } : State).registers.v 0xF = 0 ∧
    (c8_op_or { stateInit with registers := { regsInit with
        v := fun k => if k = 0 then 1 else 0 } } 0xF 0).registers.v 0xF = 1 := by
  decide

/-- Claim C5 (amended): after `8xy1`/`8xy2`/`8xy3`, `VF = 0` whenever the
VF-reset quirk is enabled; with the quirk disabled `VF` keeps its
pre-instruction value whenever `x ≠ 0xF`, while for `x = 0xF` it instead
receives the bitwise result `v[0xF] op v[y]`. -/
theorem c8_logic_vf_update (s : State) (x y : Nat) :
    (s.config.quirks &&& C8_QUIRK_VF_RESET ≠ 0 →
      (c8_op_or s x y).registers.v 0xF = 0 ∧
      (c8_op_and s x y).registers.v 0xF = 0 ∧
      (c8_op_xor s x y).registers.v 0xF = 0) ∧
    (s.config.quirks &&& C8_QUIRK_VF_RESET = 0 → x ≠ 0xF →
      (c8_op_or s x y).registers.v 0xF = s.registers.v 0xF ∧
      (c8_op_and s x y).registers.v 0xF = s.registers.v 0xF ∧
      (c8_op_xor s x y).registers.v 0xF = s.registers.v 0xF) ∧
    (s.config.quirks &&& C8_QUIRK_VF_RESET = 0 →
      (c8_op_or s 0xF y).registers.v 0xF = s.registers.v 0xF ||| s.registers.v y ∧
      (c8_op_and s 0xF y).registers.v 0xF = s.registers.v 0xF &&& s.registers.v y ∧
      (c8_op_xor s 0xF y).registers.v 0xF = s.registers.v 0xF ^^^ s.registers.v y) := by
  refine ⟨fun hq => ?_, fun hq hx => ?_, fun hq => ?_⟩
  · refine ⟨?_, ?_, ?_⟩ <;>
      simp [c8_op_or, c8_op_and, c8_op_xor, hq, Function.update_same]
  · have hx' : (0xF : Nat) ≠ x := Ne.symm hx
    refine ⟨?_, ?_, ?_⟩ <;>
      simp [c8_op_or, c8_op_and, c8_op_xor, hq, Function.update_noteq hx']
  · refine ⟨?_, ?_, ?_⟩ <;>
      simp [c8_op_or, c8_op_and, c8_op_xor, hq, Function.update_same]

/-- Witness for `c8_logic_vf_update` at `stateInit` (quirks are 0), `x = 1`,
`y = 2`. -/
theorem c8_logic_vf_update_witness :
    (c8_op_or stateInit 1 2).registers.v 0xF = stateInit.registers.v 0xF ∧
    (c8_op_or stateInit 0xF 2).registers.v 0xF =
      stateInit.registers.v 0xF ||| stateInit.registers.v 2 :=
  ⟨((c8_logic_vf_update stateInit 1 2).2.1 (by decide) (by decide)).1,
   ((c8_logic_vf_update stateInit 1 2).2.2 (by decide)).1⟩

/-- Claim C4: `8xy6`/`8xyE` take their source value from `v[y]` without the
shift quirk and from `v[x]` with it; `v[x]` receives the shifted byte and
`v[0xF]` receives the bit shifted out (pre-shift LSB for SHR, pre-shift MSB
for SHL), the flag being what remains in `v[0xF]` even when `x = 0xF`
because it is written after the result. -/
theorem c8_shift_flags (s : State) (x y : Nat)
    (hval : s.registers.v (if s.config.quirks &&& C8_QUIRK_SHIFT ≠ 0 then x else y) < 256) :
    ((c8_op_shr s x y).registers.v 0xF =
      s.registers.v (if s.config.quirks &&& C8_QUIRK_SHIFT ≠ 0 then x else y) % 2) ∧
    (x ≠ 0xF → (c8_op_shr s x y).registers.v x =
      s.registers.v (if s.config.quirks &&& C8_QUIRK_SHIFT ≠ 0 then x else y) / 2) ∧
    ((c8_op_shl s x y).registers.v 0xF =
      s.registers.v (if s.config.quirks &&& C8_QUIRK_SHIFT ≠ 0 then x else y) / 128) ∧
    (x ≠ 0xF → (c8_op_shl s x y).registers.v x =
      2 * s.registers.v (if s.config.quirks &&& C8_QUIRK_SHIFT ≠ 0 then x else y) % 256) := by
  refine ⟨?_, fun hx => ?_, ?_, fun hx => ?_⟩
  · simp [c8_op_shr, Function.update_same, Nat.and_one_is_mod]
  · simp [c8_op_shr, Function.update_noteq hx, Function.update_same, Nat.shiftRight_one]
  · simpa [c8_op_shl, Function.update_same] using byte_and_128_shr_7 _ hval
  · simp [c8_op_shl, Function.update_noteq hx, Function.update_same, u8, Nat.shiftLeft_eq]
    omega

/-- Witness for `c8_shift_flags` at `stateInit`, `x = 1`, `y = 2`. -/
theorem c8_shift_flags_witness :
    (c8_op_shr stateInit 1 2).registers.v 1 =
      stateInit.registers.v (if stateInit.config.quirks &&& C8_QUIRK_SHIFT ≠ 0 then 1 else 2) / 2 ∧
    (c8_op_shl stateInit 1 2).registers.v 0xF =
      stateInit.registers.v (if stateInit.config.quirks &&& C8_QUIRK_SHIFT ≠ 0 then 1 else 2) / 128 :=
  ⟨(c8_shift_flags stateInit 1 2 (by decide)).2.1 (by decide),
   (c8_shift_flags stateInit 1 2 (by decide)).2.2.1⟩

/-- Claim C9 counterexample: `c8_reset` does not reinitialize the vblank
budget: two states that agree on everything (in particular the config) except
`vblank` still differ in `vblank` after reset, so the post-reset budget is
not a function of the configuration. -/
theorem c8_reset_vblank_counterexample :
    ({ stateInit with vblank := 5 } : State).config = ({ stateInit with vblank := 7 } : State).config ∧
    (c8_reset { stateInit with vblank := 5 }).vblank = 5 ∧
    (c8_reset { stateInit with vblank := 7 }).vblank = 7 ∧
    (c8_reset { stateInit with vblank := 5 }).vblank ≠ (c8_reset { stateInit with vblank := 7 }).vblank := by
  refine ⟨rfl, rfl, rfl, by decide⟩

/-- Claim C9 (amended): `c8_reset` zeroes the memory except for the 2-byte
fault trap at 0x000 and the 80-byte font at 0x050, zeroes the display
buffer, resets the registers (`pc = 0x200`, everything else zero), and
preserves the 4 PRNG bytes; the `vblank` budget is also left exactly as it
was (not reinitialized). -/
theorem c8_reset_state (s : State) :
    (c8_reset s).rng = s.rng ∧
    (c8_reset s).vblank = s.vblank ∧
    (c8_reset s).registers =
      { stack := fun _ => 0, v := fun _ => 0, pc := 0x200, i := 0, sp := 0, dt := 0, st := 0 } ∧
    (∀ p, p < s.config.screen_width * s.config.screen_height → (c8_reset s).display p = 0) ∧
    (∀ a, a < s.config.memory_size →
      (c8_reset s).memory a =
        if a < 2 then C8_FAULT_HANDLER.getD a 0
        else if C8_MEM_FONT_OFFSET ≤ a ∧ a < C8_MEM_FONT_OFFSET + 80 then
          C8_FONT.getD (a - C8_MEM_FONT_OFFSET) 0
        else 0) := by
  refine ⟨rfl, rfl, rfl, fun p hp => ?_, fun a ha => ?_⟩
  · simp [c8_reset, hp]
  · by_cases h1 : a < 2
    · simp [c8_reset, h1]
    · by_cases h2 : C8_MEM_FONT_OFFSET ≤ a ∧ a < C8_MEM_FONT_OFFSET + 80
      · simp [c8_reset, h1, h2]
      · simp [c8_reset, h1, h2, ha]

/-- Witness for `c8_reset_state` at `stateInit`, display position 100 and
the first font byte. -/
theorem c8_reset_state_witness :
    (c8_reset stateInit).display 100 = 0 ∧
    (c8_reset stateInit).memory 0x50 = 0xF0 := by
  refine ⟨(c8_reset_state stateInit).2.2.2.1 100 (by decide), ?_⟩
  have h := (c8_reset_state stateInit).2.2.2.2 0x50 (by decide)
  exact h.trans (by decide)

/-- Claim C3 counterexample: a state whose `pc` lies outside the valid
instruction range `[0, memory_size-2]` (namely `pc = memory_size - 1 =
4095`) is NOT forced to the fault address by the next `c8_step`: the fetch
reads the byte at 4095 (0x1F) and one byte past the buffer, decodes the jump
`1F00`, and the step ends with `pc = 0xF00`, not 0x000 (the end-of-step
check only fires for `pc >= memory_size`). -/
theorem c8_step_pc_bound_counterexample :
    ({ stateInit with
        registers := { regsInit with pc := 4095 },
        memory := fun a => if a = 4095 then 0x1F else 0 } : State).config.memory_size - 2
      < ({ stateInit with
        registers := { regsInit with pc := 4095 },
        memory := fun a => if a = 4095 then 0x1F else 0 } : State).registers.pc ∧
    (c8_step { stateInit with
        registers := { regsInit with pc := 4095 },
        memory := fun a => if a = 4095 then 0x1F else 0 }).registers.pc = 0xF00 ∧
    (c8_step { stateInit with
        registers := { regsInit with pc := 4095 },
        memory := fun a => if a = 4095 then 0x1F else 0 }).registers.pc ≠ C8_PC_ON_FAULT := by
  decide

/-- Claim C3 (amended): the end-of-step check of `c8_step` forces `pc` to
the fault address 0x000 exactly when the post-instruction `pc` is at least
`memory_size`; consequently the `pc` left by every step is below
`memory_size` (but `pc = memory_size - 1` is not treated as a fault, so the
two-byte fetch can still read one byte past the buffer). -/
theorem c8_step_pc_clamp (s : State) :
    ((c8_dispatch s).config.memory_size ≤ (c8_dispatch s).registers.pc →
      (c8_step s).registers.pc = C8_PC_ON_FAULT) ∧
    (0 < (c8_dispatch s).config.memory_size →
      (c8_step s).registers.pc < (c8_dispatch s).config.memory_size) := by
  constructor
  · intro h
    simp [c8_step, h]
  · intro hpos
    by_cases h : (c8_dispatch s).config.memory_size ≤ (c8_dispatch s).registers.pc
    · simpa [c8_step, h, C8_PC_ON_FAULT] using hpos
    · simp [c8_step, h]
      omega

/-- Witness for `c8_step_pc_clamp`: from `pc = 4094` the decoded word is
0x0000 (SYS), which advances `pc` to 4096 = `memory_size`, and the check
forces it to 0x000. -/
theorem c8_step_pc_clamp_witness :
    (c8_step { stateInit with registers := { regsInit with pc := 4094 } }).registers.pc
      = C8_PC_ON_FAULT ∧
    (c8_step { stateInit with registers := { regsInit with pc := 4094 } }).registers.pc
      < (c8_dispatch { stateInit with registers := { regsInit with pc := 4094 } }).config.memory_size :=
  ⟨(c8_step_pc_clamp { stateInit with registers := { regsInit with pc := 4094 } }).1 (by decide),
   (c8_step_pc_clamp { stateInit with registers := { regsInit with pc := 4094 } }).2 (by decide)⟩

/-- Claim C6 counterexample: in a no-quirk state with `i = memory_size =
4096` (reachable, since the increment can leave `i = memory_size`), `Fx55`
with `x = 0` does not truncate into bounds: the `uint8_t` conversion of
`memory_size - i - 1 = -1` yields a transfer count of 255, the transfer
range `[i, i+255]` escapes memory entirely, and `i` changes by 256 instead
of `x + 1 = 1`. -/
theorem c8_bulk_transfer_counterexample :
    ({ stateInit with registers := { regsInit with i := 4096 } } : State).config.quirks = 0 ∧
    c8_trunc_x 4096 4096 0 = 255 ∧
    ¬ 4096 + c8_trunc_x 4096 4096 0 < 4096 ∧
    (c8_op_ld_i_vx { stateInit with registers := { regsInit with i := 4096 } } 0).registers.i
      = 4352 ∧
    (c8_op_ld_i_vx { stateInit with registers := { regsInit with i := 4096 } } 0).registers.i
      ≠ 4096 + 0 + 1 := by
  decide

/-- Claim C6 (amended: for `i < memory_size`): `Fx55`/`Fx65` first truncate
the count to `memory_size - i - 1` when `i + x` would reach or exceed
`memory_size` (so the transfer range `[i, i + x']` stays inside memory), and
then change `i` by exactly `x' + 1` when neither load/store quirk is set, by
exactly `x'` when the increment-by-X quirk is set, and not at all when the
no-increment quirk is set, where `x'` is the (possibly truncated) count. -/
theorem c8_bulk_transfer_i (s : State) (x : Nat)
    (hi : s.registers.i < s.config.memory_size)
    (hms : s.config.memory_size ≤ 65535)
    (hx : x ≤ 255) :
    (c8_trunc_x s.registers.i s.config.memory_size x =
      if s.config.memory_size ≤ s.registers.i + x then
        s.config.memory_size - s.registers.i - 1 else x) ∧
    s.registers.i + c8_trunc_x s.registers.i s.config.memory_size x < s.config.memory_size ∧
    ((c8_op_ld_i_vx s x).registers.i =
      if s.config.quirks &&& C8_QUIRK_LOAD_STORE_NO_INC_I ≠ 0 then s.registers.i
      else s.registers.i + c8_trunc_x s.registers.i s.config.memory_size x +
        (if s.config.quirks &&& C8_QUIRK_LOAD_STORE_INC_I_BY_X ≠ 0 then 0 else 1)) ∧
    ((c8_op_ld_vx_i s x).registers.i =
      if s.config.quirks &&& C8_QUIRK_LOAD_STORE_NO_INC_I ≠ 0 then s.registers.i
      else s.registers.i + c8_trunc_x s.registers.i s.config.memory_size x +
        (if s.config.quirks &&& C8_QUIRK_LOAD_STORE_INC_I_BY_X ≠ 0 then 0 else 1)) := by
  have htr : c8_trunc_x s.registers.i s.config.memory_size x =
      if s.config.memory_size ≤ s.registers.i + x then
        s.config.memory_size - s.registers.i - 1 else x := by
    by_cases h : s.config.memory_size ≤ s.registers.i + x
    · simp only [c8_trunc_x, if_pos h]
      have h1 : ((s.config.memory_size : Int) - s.registers.i - 1)
          = ((s.config.memory_size - s.registers.i - 1 : Nat) : Int) := by omega
      rw [h1, Int.emod_eq_of_lt (by omega) (by omega)]
      omega
    · simp only [c8_trunc_x, if_neg h]
  have hb : s.registers.i + c8_trunc_x s.registers.i s.config.memory_size x
      < s.config.memory_size := by
    rw [htr]
    split_ifs with h <;> omega
  refine ⟨htr, hb, ?_, ?_⟩ <;>
  · simp only [c8_op_ld_i_vx, c8_op_ld_vx_i]
    by_cases hno : s.config.quirks &&& C8_QUIRK_LOAD_STORE_NO_INC_I = 0 <;>
      by_cases hbx : s.config.quirks &&& C8_QUIRK_LOAD_STORE_INC_I_BY_X ≠ 0 <;>
        simp [hno, hbx, u16] <;> omega

/-- Witness for `c8_bulk_transfer_i` at `stateInit` with `i = 100`,
`x = 5`. -/
theorem c8_bulk_transfer_i_witness :
    ((c8_op_ld_i_vx { stateInit with registers := { regsInit with i := 100 } } 5).registers.i =
      if ({ stateInit with registers := { regsInit with i := 100 } } : State).config.quirks
          &&& C8_QUIRK_LOAD_STORE_NO_INC_I ≠ 0 then 100
      else 100 + c8_trunc_x 100 4096 5 +
        (if ({ stateInit with registers := { regsInit with i := 100 } } : State).config.quirks
            &&& C8_QUIRK_LOAD_STORE_INC_I_BY_X ≠ 0 then 0 else 1)) ∧
    100 + c8_trunc_x 100 4096 5 < 4096 :=
  ⟨(c8_bulk_transfer_i { stateInit with registers := { regsInit with i := 100 } } 5
      (by decide) (by decide) (by decide)).2.2.1,
   (c8_bulk_transfer_i { stateInit with registers := { regsInit with i := 100 } } 5
      (by decide) (by decide) (by decide)).2.1⟩

/-- Claim C10: with no key in 0..15 pressed, `Fx0A` leaves the state
unchanged (no `pc` advance, so it re-executes), yet the base decoder still
reports the word handled; with at least one key pressed, `v[x]` receives the
smallest pressed index and `pc` advances by exactly 2. -/
theorem c8_wait_key (s : State) (x : Nat) :
    ((∀ k, k < 16 → s.pressed_keys k = false) → c8_op_ld_vx_key s x = s) ∧
    (∀ op, op &&& 0xF000 = 0xF000 → op &&& 0x00FF = 0x0A →
      (c8_chip8_op_handler s op).1 = true) ∧
    (∀ k, k < 16 → s.pressed_keys k = true → (∀ j, j < k → s.pressed_keys j = false) →
      s.registers.pc + 2 < 65536 →
      (c8_op_ld_vx_key s x).registers.v x = k ∧
      (c8_op_ld_vx_key s x).registers.pc = s.registers.pc + 2) := by
  refine ⟨fun hnone => ?_, fun op h1 h2 => ?_, fun k hk hpk hmin hpc => ?_⟩
  · have hfind : (List.range 16).find? (fun k => s.pressed_keys k) = none :=
      List.find?_eq_none.mpr fun j hj => by simp [hnone j (List.mem_range.mp hj)]
    simp [c8_op_ld_vx_key, hfind]
  · simp [c8_chip8_op_handler, h1, h2]
  · have hfind : (List.range 16).find? (fun j => s.pressed_keys j) = some k :=
      find_range_eq_some _ 16 k hk hpk fun j hj => hmin j hj
    simp [c8_op_ld_vx_key, hfind, Function.update_same, u16, Nat.mod_eq_of_lt hpc]

/-- Witness for `c8_wait_key`: no keys pressed at `stateInit` (no-op, still
handled); keys 5 and 9 pressed (smallest wins). -/
theorem c8_wait_key_witness :
    c8_op_ld_vx_key stateInit 3 = stateInit ∧
    (c8_chip8_op_handler stateInit 0xF30A).1 = true ∧
    (c8_op_ld_vx_key { stateInit with
        pressed_keys := fun k => decide (k = 5 ∨ k = 9) } 3).registers.v 3 = 5 ∧
    (c8_op_ld_vx_key { stateInit with
        pressed_keys := fun k => decide (k = 5 ∨ k = 9) } 3).registers.pc
      = ({ stateInit with
        pressed_keys := fun k => decide (k = 5 ∨ k = 9) } : State).registers.pc + 2 :=
  ⟨(c8_wait_key stateInit 3).1 (by decide),
   (c8_wait_key stateInit 3).2.1 0xF30A (by decide) (by decide),
   ((c8_wait_key { stateInit with pressed_keys := fun k => decide (k = 5 ∨ k = 9) } 3).2.2
      5 (by decide) (by decide) (by decide) (by decide)).1,
   ((c8_wait_key { stateInit with pressed_keys := fun k => decide (k = 5 ∨ k = 9) } 3).2.2
      5 (by decide) (by decide) (by decide) (by decide)).2⟩

/-- Every instruction-word shape in `c8_unhandled_shape` falls through the
decoder switch: the base handler returns `h = false` without touching the
state. -/
theorem c8_handler_unhandled (s : State) (op : Nat) (h : c8_unhandled_shape op) :
    c8_chip8_op_handler s op = (false, s) := by
  rcases h with ⟨h1, h2⟩ | ⟨h1, h2⟩ | ⟨h1, h2⟩ | ⟨h1, h2, h3⟩ | ⟨h1, h2⟩
  · simp [c8_chip8_op_handler, h1, h2]
  · simp only [List.mem_cons, List.not_mem_nil, or_false] at h2
    push_neg at h2
    obtain ⟨a0, a1, a2, a3, a4, a5, a6, a7, a8⟩ := h2
    simp [c8_chip8_op_handler, h1, a0, a1, a2, a3, a4, a5, a6, a7, a8]
  · simp [c8_chip8_op_handler, h1, h2]
  · simp [c8_chip8_op_handler, h1, h2, h3]
  · simp only [List.mem_cons, List.not_mem_nil, or_false] at h2
    push_neg at h2
    obtain ⟨b0, b1, b2, b3, b4, b5, b6, b7, b8⟩ := h2
    simp [c8_chip8_op_handler, h1, b0, b1, b2, b3, b4, b5, b6, b7, b8]

/-- Claim C2: when the fetched word has one of the shapes no branch of the
base decoder recognizes, `c8_step` (over the default handler chain) leaves
the entire machine state unchanged — in particular `pc` does not advance,
so the machine stalls on that instruction. -/
theorem c8_step_unrecognized_noop (s : State) (hshape : c8_unhandled_shape (c8_fetch s))
    (hpc : s.registers.pc < s.config.memory_size) : c8_step s = s := by
  have hh := c8_handler_unhandled s (c8_fetch s) hshape
  simp [c8_step, c8_dispatch, c8_run_handlers, hh, Nat.not_le.mpr hpc]

/-- Witness for `c8_step_unrecognized_noop`: the word 0x5001 (shape `5xy1`)
fetched at `pc = 0x200`. -/
theorem c8_step_unrecognized_noop_witness :
    c8_step { stateInit with
      memory := fun a => if a = 0x200 then 0x50 else if a = 0x201 then 0x01 else 0 }
    = { stateInit with
      memory := fun a => if a = 0x200 then 0x50 else if a = 0x201 then 0x01 else 0 } :=
  c8_step_unrecognized_noop
    { stateInit with
      memory := fun a => if a = 0x200 then 0x50 else if a = 0x201 then 0x01 else 0 }
    (by unfold c8_unhandled_shape; decide) (by decide)

/-- The display component of the draw loop is the pointwise XOR of the
initial display with the accumulated sprite mask. -/
theorem c8_drw_loop_fst (bit pos : Nat × Nat → Nat) (cells : List (Nat × Nat)) :
    ∀ (d : Nat → Nat) (vf : Nat),
      (c8_drw_loop bit pos cells d vf).1 = fun p => d p ^^^ c8_drw_mask bit pos cells p := by
  induction cells with
  | nil =>
    intro d vf
    funext p
    simp [c8_drw_loop, c8_drw_mask]
  | cons c cs ih =>
    intro d vf
    have hstep : c8_drw_loop bit pos (c :: cs) d vf
        = c8_drw_loop bit pos cs
            (Function.update d (pos c) (d (pos c) ^^^ bit c))
            (if d (pos c) ≠ 0 ∧ bit c = 1 then 1 else vf) := rfl
    rw [hstep, ih]
    funext p
    by_cases hp : pos c = p
    · subst hp
      simp [c8_drw_mask, Function.update_same, Nat.xor_assoc]
    · simp [c8_drw_mask, Function.update_noteq (Ne.symm hp), hp]

/-- The mask vanishes at positions the iteration space never writes. -/
theorem c8_drw_mask_eq_zero (bit pos : Nat × Nat → Nat) (cells : List (Nat × Nat)) (p : Nat)
    (h : ∀ c ∈ cells, pos c ≠ p) : c8_drw_mask bit pos cells p = 0 := by
  induction cells with
  | nil => rfl
  | cons c cs ih =>
    have hc : pos c ≠ p := h c (List.mem_cons_self c cs)
    simp [c8_drw_mask, hc, ih fun c' hc' => h c' (List.mem_cons_of_mem c hc')]

/-- With pairwise-distinct positions, the mask at `pos c` is exactly the
sprite bit of `c`. -/
theorem c8_drw_mask_self (bit pos : Nat × Nat → Nat) (cells : List (Nat × Nat))
    (hpw : cells.Pairwise fun a b => pos a ≠ pos b) (c : Nat × Nat) (hc : c ∈ cells) :
    c8_drw_mask bit pos cells (pos c) = bit c := by
  induction cells with
  | nil => exact absurd hc (List.not_mem_nil c)
  | cons c0 cs ih =>
    rw [List.pairwise_cons] at hpw
    rcases List.mem_cons.mp hc with h | h
    · subst h
      have hz : c8_drw_mask bit pos cs (pos c) = 0 :=
        c8_drw_mask_eq_zero bit pos cs (pos c) fun c' hc' => (hpw.1 c' hc').symm
      simp [c8_drw_mask, hz]
    · have h0 : pos c0 ≠ pos c := hpw.1 c h
      simp [c8_drw_mask, h0, ih hpw.2 h]

/-- With pairwise-distinct positions, the collision flag computed by the
draw loop is 1 exactly when some iteration sees a nonzero display byte
under a set sprite bit; otherwise the initial flag is kept. -/
theorem c8_drw_loop_snd (bit pos : Nat × Nat → Nat) (cells : List (Nat × Nat)) :
    cells.Pairwise (fun a b => pos a ≠ pos b) → ∀ (d : Nat → Nat) (vf : Nat),
      (c8_drw_loop bit pos cells d vf).2 =
        if ∃ c ∈ cells, d (pos c) ≠ 0 ∧ bit c = 1 then 1 else vf := by
  induction cells with
  | nil =>
    intro _ d vf
    simp [c8_drw_loop]
  | cons c cs ih =>
    intro hpw d vf
    rw [List.pairwise_cons] at hpw
    have hstep : c8_drw_loop bit pos (c :: cs) d vf
        = c8_drw_loop bit pos cs
            (Function.update d (pos c) (d (pos c) ^^^ bit c))
            (if d (pos c) ≠ 0 ∧ bit c = 1 then 1 else vf) := rfl
    rw [hstep, ih hpw.2]
    have hd' : ∀ c' ∈ cs,
        (Function.update d (pos c) (d (pos c) ^^^ bit c)) (pos c') = d (pos c') :=
      fun c' hc' => Function.update_noteq (Ne.symm (hpw.1 c' hc')) _ _
    have hex : (∃ c' ∈ cs,
          (Function.update d (pos c) (d (pos c) ^^^ bit c)) (pos c') ≠ 0 ∧ bit c' = 1)
        ↔ (∃ c' ∈ cs, d (pos c') ≠ 0 ∧ bit c' = 1) := by
      constructor
      · rintro ⟨c', hc', hne, hb⟩
        exact ⟨c', hc', by rwa [hd' c' hc'] at hne, hb⟩
      · rintro ⟨c', hc', hne, hb⟩
        exact ⟨c', hc', by rwa [hd' c' hc'], hb⟩
    have hcons : (∃ c' ∈ c :: cs, d (pos c') ≠ 0 ∧ bit c' = 1)
        ↔ ((d (pos c) ≠ 0 ∧ bit c = 1) ∨ ∃ c' ∈ cs, d (pos c') ≠ 0 ∧ bit c' = 1) := by
      constructor
      · rintro ⟨c', hc', hcond⟩
        rcases List.mem_cons.mp hc' with h | h
        · subst h; exact Or.inl hcond
        · exact Or.inr ⟨c', h, hcond⟩
      · rintro (hcond | ⟨c', hc', hcond⟩)
        · exact ⟨c, List.mem_cons_self c cs, hcond⟩
        · exact ⟨c', List.mem_cons_of_mem c hc', hcond⟩
    rw [if_congr hex rfl rfl, if_congr hcons rfl rfl]
    by_cases h1 : d (pos c) ≠ 0 ∧ bit c = 1 <;>
      by_cases h2 : ∃ c' ∈ cs, d (pos c') ≠ 0 ∧ bit c' = 1 <;>
        simp [h1, h2]

/-- Membership in the draw iteration space. -/
theorem c8_drw_cells_mem (sh sw : Nat) (c : Nat × Nat) :
    c ∈ c8_drw_cells sh sw ↔ c.1 < sh ∧ c.2 < sw := by
  obtain ⟨i, j⟩ := c
  constructor
  · intro hc
    obtain ⟨a, ha, hmem⟩ := List.mem_flatMap.mp hc
    obtain ⟨b, hb, heq⟩ := List.mem_map.mp hmem
    obtain ⟨rfl, rfl⟩ := Prod.mk.injEq .. |>.mp heq
    exact ⟨List.mem_range.mp ha, List.mem_range.mp hb⟩
  · rintro ⟨hi, hj⟩
    exact List.mem_flatMap.mpr ⟨i, List.mem_range.mpr hi,
      List.mem_map.mpr ⟨j, List.mem_range.mpr hj, rfl⟩⟩

/-- Decomposition of a row-major position `dy * w + dx` with `dx < w`. -/
theorem rowmajor_inj (dy1 dx1 dy2 dx2 w : Nat) (h1 : dx1 < w) (h2 : dx2 < w)
    (heq : dy1 * w + dx1 = dy2 * w + dx2) : dy1 = dy2 ∧ dx1 = dx2 := by
  have hdx : dx1 = dx2 := by
    have e1 : (dy1 * w + dx1) % w = dx1 := by
      rw [Nat.add_comm, Nat.add_mul_mod_self_right, Nat.mod_eq_of_lt h1]
    have e2 : (dy2 * w + dx2) % w = dx2 := by
      rw [Nat.add_comm, Nat.add_mul_mod_self_right, Nat.mod_eq_of_lt h2]
    rw [← e1, ← e2, heq]
  refine ⟨?_, hdx⟩
  have h3 : dy1 * w + dx2 = dy2 * w + dx2 := by rw [hdx] at heq; exact heq
  exact Nat.eq_of_mul_eq_mul_right (Nat.lt_of_le_of_lt (Nat.zero_le _) h1)
    (Nat.add_right_cancel h3)

/-- When the (clipped or wrapped) sprite dimensions fit the screen, the
iteration space maps injectively onto display positions. -/
theorem c8_drw_cells_pairwise (w h px0 py0 sh sw : Nat) (hw : 0 < w) (hh : 0 < h)
    (hsw : sw ≤ w) (hsh : sh ≤ h) :
    (c8_drw_cells sh sw).Pairwise
      fun a b => c8_drw_pos w h px0 py0 a ≠ c8_drw_pos w h px0 py0 b := by
  have hnd : (c8_drw_cells sh sw).Nodup :=
    List.Nodup.product (List.nodup_range sh) (List.nodup_range sw)
  refine List.Pairwise.imp_of_mem ?_ hnd
  intro a b ha hb hne heq
  apply hne
  obtain ⟨ha1, ha2⟩ := (c8_drw_cells_mem sh sw a).mp ha
  obtain ⟨hb1, hb2⟩ := (c8_drw_cells_mem sh sw b).mp hb
  unfold c8_drw_pos at heq
  obtain ⟨hdy, hdx⟩ := rowmajor_inj _ _ _ _ w (Nat.mod_lt _ hw) (Nat.mod_lt _ hw) heq
  have hfst : a.1 = b.1 :=
    add_mod_inj py0 h a.1 b.1 (Nat.lt_of_lt_of_le ha1 hsh) (Nat.lt_of_lt_of_le hb1 hsh) hdy
  have hsnd : a.2 = b.2 :=
    add_mod_inj px0 w a.2 b.2 (Nat.lt_of_lt_of_le ha2 hsw) (Nat.lt_of_lt_of_le hb2 hsw) hdx
  exact Prod.ext hfst hsnd

/-- When the draw actually executes (vblank quirk off or budget nonzero),
`c8_op_drw` decrements the budget (quirk set only), XORs the sprite into the
display, stores the collision flag in `v[0xF]`, and advances `pc`. -/
theorem c8_op_drw_run (s : State) (x y n : Nat)
    (hrun : s.config.quirks &&& C8_QUIRK_VBLANK = 0 ∨ s.vblank ≠ 0) :
    c8_op_drw s x y n =
      { s with
        vblank := if s.config.quirks &&& C8_QUIRK_VBLANK ≠ 0 then s.vblank - 1 else s.vblank,
        display := (c8_drw_result s x y n).1,
        registers := { s.registers with
          v := Function.update s.registers.v 0xF (c8_drw_result s x y n).2,
          pc := u16 (s.registers.pc + 2) } } := by
  by_cases hq : s.config.quirks &&& C8_QUIRK_VBLANK ≠ 0
  · have hv : s.vblank ≠ 0 := hrun.resolve_left hq
    simp [c8_op_drw, hq, hv]
    exact ⟨rfl, rfl⟩
  · have hq0 : s.config.quirks &&& C8_QUIRK_VBLANK = 0 := not_ne_iff.mp hq
    simp [c8_op_drw, hq0]

/-- Claim C8 counterexample: in a default-config state with a clear display
and the one-byte sprite 0x80 at `I = 0`, drawing `D011` twice at (0, 0)
leaves `VF = 1` after the second draw (the second draw collides with the
pixels the first one set while erasing them), not `VF = 0` as the claim
says for the no-other-sprite case; the first draw reports `VF = 0`. -/
theorem c8_drw_double_counterexample :
    (c8_op_drw { stateInit with
        memory := fun a => if a = 0 then 0x80 else 0 } 0 1 1).registers.v 0xF = 0 ∧
    (c8_op_drw (c8_op_drw { stateInit with
        memory := fun a => if a = 0 then 0x80 else 0 } 0 1 1) 0 1 1).registers.v 0xF = 1 ∧
    (∀ p, ({ stateInit with
        memory := fun a => if a = 0 then 0x80 else 0 } : State).display p = 0) := by
  refine ⟨by decide, by decide, fun p => rfl⟩

/-- Claim C8 (amended): provided both draws execute (vblank quirk off or
budget at least 2), the coordinate registers are not `v[0xF]` (`x ≠ 0xF`,
`y ≠ 0xF`), the screen dimensions are positive, the iteration space fits
the screen (always true when clipping; `8 ≤ width` and `n ≤ height` when
wrapping), and the display holds boolean pixels: executing the same `Dxyn`
twice restores every display pixel to its pre-draw value, and the second
draw reports `VF = 1` exactly when some clipped/wrapped sprite bit is set
over a pixel that was CLEAR before the first draw — in particular, erasing
the sprite just drawn on a clear background is itself a collision, so `VF`
is 1 (not 0) in the no-other-sprite case. -/
theorem c8_drw_double (s : State) (x y n : Nat)
    (hx : x ≠ 0xF) (hy : y ≠ 0xF)
    (hvb : s.config.quirks &&& C8_QUIRK_VBLANK = 0 ∨ 2 ≤ s.vblank)
    (hw : 0 < s.config.screen_width) (hh : 0 < s.config.screen_height)
    (hwrap : s.config.quirks &&& C8_QUIRK_WRAP_SPRITES = 0 ∨
      (8 ≤ s.config.screen_width ∧ n ≤ s.config.screen_height))
    (hpix : ∀ p, s.display p ≤ 1) :
    (∀ p, (c8_op_drw (c8_op_drw s x y n) x y n).display p = s.display p) ∧
    ((c8_op_drw (c8_op_drw s x y n) x y n).registers.v 0xF = 1 ↔
      ∃ c ∈ c8_drw_cells
          (c8_drw_sh s.config.quirks s.config.screen_height
            (s.registers.v y % s.config.screen_height) n)
          (c8_drw_sw s.config.quirks s.config.screen_width
            (s.registers.v x % s.config.screen_width)),
        c8_sprite_bit s.memory s.registers.i c = 1 ∧
        s.display (c8_drw_pos s.config.screen_width s.config.screen_height
          (s.registers.v x % s.config.screen_width)
          (s.registers.v y % s.config.screen_height) c) = 0) := by
  have hrun1 : s.config.quirks &&& C8_QUIRK_VBLANK = 0 ∨ s.vblank ≠ 0 :=
    hvb.imp id fun h2 => by omega
  have hs1 := c8_op_drw_run s x y n hrun1
  have hrun2 : (c8_op_drw s x y n).config.quirks &&& C8_QUIRK_VBLANK = 0 ∨
      (c8_op_drw s x y n).vblank ≠ 0 := by
    rcases hvb with hB | hB
    · left
      simp only [hs1]
      exact hB
    · right
      simp only [hs1]
      split_ifs <;> omega
  have hs2 := c8_op_drw_run (c8_op_drw s x y n) x y n hrun2
  have hres1 : c8_drw_result s x y n
      = c8_drw_loop (c8_sprite_bit s.memory s.registers.i)
          (c8_drw_pos s.config.screen_width s.config.screen_height
            (s.registers.v x % s.config.screen_width)
            (s.registers.v y % s.config.screen_height))
          (c8_drw_cells
            (c8_drw_sh s.config.quirks s.config.screen_height
              (s.registers.v y % s.config.screen_height) n)
            (c8_drw_sw s.config.quirks s.config.screen_width
              (s.registers.v x % s.config.screen_width)))
          s.display 0 := rfl
  have hres2 : c8_drw_result (c8_op_drw s x y n) x y n
      = c8_drw_loop (c8_sprite_bit s.memory s.registers.i)
          (c8_drw_pos s.config.screen_width s.config.screen_height
            (s.registers.v x % s.config.screen_width)
            (s.registers.v y % s.config.screen_height))
          (c8_drw_cells
            (c8_drw_sh s.config.quirks s.config.screen_height
              (s.registers.v y % s.config.screen_height) n)
            (c8_drw_sw s.config.quirks s.config.screen_width
              (s.registers.v x % s.config.screen_width)))
          (c8_drw_result s x y n).1 0 := by
    rw [hs1]
    simp only [c8_drw_result, Function.update_noteq hx, Function.update_noteq hy]
  have hd1 : (c8_drw_result s x y n).1
      = fun p => s.display p ^^^
          c8_drw_mask (c8_sprite_bit s.memory s.registers.i)
            (c8_drw_pos s.config.screen_width s.config.screen_height
              (s.registers.v x % s.config.screen_width)
              (s.registers.v y % s.config.screen_height))
            (c8_drw_cells
              (c8_drw_sh s.config.quirks s.config.screen_height
                (s.registers.v y % s.config.screen_height) n)
              (c8_drw_sw s.config.quirks s.config.screen_width
                (s.registers.v x % s.config.screen_width)))
            p := by
    rw [hres1]
    exact c8_drw_loop_fst _ _ _ s.display 0
  have hsw : c8_drw_sw s.config.quirks s.config.screen_width
      (s.registers.v x % s.config.screen_width) ≤ s.config.screen_width := by
    unfold c8_drw_sw
    split_ifs with hq
    · rcases hwrap with h8 | ⟨h8, _⟩
      · exact absurd h8 hq
      · exact h8
    · exact Nat.le_trans (Nat.min_le_right _ _) (Nat.sub_le _ _)
  have hsh : c8_drw_sh s.config.quirks s.config.screen_height
      (s.registers.v y % s.config.screen_height) n ≤ s.config.screen_height := by
    unfold c8_drw_sh
    split_ifs with hq
    · rcases hwrap with h8 | ⟨_, h8⟩
      · exact absurd h8 hq
      · exact h8
    · exact Nat.le_trans (Nat.min_le_right _ _) (Nat.sub_le _ _)
  have hpw := c8_drw_cells_pairwise s.config.screen_width s.config.screen_height
    (s.registers.v x % s.config.screen_width) (s.registers.v y % s.config.screen_height)
    (c8_drw_sh s.config.quirks s.config.screen_height
      (s.registers.v y % s.config.screen_height) n)
    (c8_drw_sw s.config.quirks s.config.screen_width
      (s.registers.v x % s.config.screen_width))
    hw hh hsw hsh
  constructor
  · intro p
    simp only [hs2, hres2, hd1]
    simp only [c8_drw_loop_fst _ _ _ _ 0]
    rw [Nat.xor_assoc, Nat.xor_self, Nat.xor_zero]
  · simp only [hs2, Function.update_same, hres2]
    rw [c8_drw_loop_snd _ _ _ hpw (c8_drw_result s x y n).1 0]
    have hiff : (∃ c ∈ c8_drw_cells
          (c8_drw_sh s.config.quirks s.config.screen_height
            (s.registers.v y % s.config.screen_height) n)
          (c8_drw_sw s.config.quirks s.config.screen_width
            (s.registers.v x % s.config.screen_width)),
          (c8_drw_result s x y n).1
            (c8_drw_pos s.config.screen_width s.config.screen_height
              (s.registers.v x % s.config.screen_width)
              (s.registers.v y % s.config.screen_height) c) ≠ 0 ∧
          c8_sprite_bit s.memory s.registers.i c = 1)
        ↔ (∃ c ∈ c8_drw_cells
          (c8_drw_sh s.config.quirks s.config.screen_height
            (s.registers.v y % s.config.screen_height) n)
          (c8_drw_sw s.config.quirks s.config.screen_width
            (s.registers.v x % s.config.screen_width)),
          c8_sprite_bit s.memory s.registers.i c = 1 ∧
          s.display (c8_drw_pos s.config.screen_width s.config.screen_height
            (s.registers.v x % s.config.screen_width)
            (s.registers.v y % s.config.screen_height) c) = 0) := by
      constructor
      · rintro ⟨c, hc, hne, hb⟩
        refine ⟨c, hc, hb, ?_⟩
        rw [hd1] at hne
        simp only at hne
        rw [c8_drw_mask_self _ _ _ hpw c hc, hb] at hne
        rcases Nat.le_one_iff_eq_zero_or_eq_one.mp
          (hpix (c8_drw_pos s.config.screen_width s.config.screen_height
            (s.registers.v x % s.config.screen_width)
            (s.registers.v y % s.config.screen_height) c)) with h0 | h1
        · exact h0
        · rw [h1] at hne
          simp at hne
      · rintro ⟨c, hc, hb, h0⟩
        refine ⟨c, hc, ?_, hb⟩
        rw [hd1]
        simp only
        rw [c8_drw_mask_self _ _ _ hpw c hc, hb, h0]
        simp
    rw [if_congr hiff rfl rfl]
    split_ifs with hP
    · simp [hP]
    · simp [hP]

/-- Witness for `c8_drw_double`: the restored-pixel conclusion at display
position 0, for the counterexample state. -/
theorem c8_drw_double_witness :
    (c8_op_drw (c8_op_drw { stateInit with
        memory := fun a => if a = 0 then 0x80 else 0 } 0 1 1) 0 1 1).display 0
      = ({ stateInit with
        memory := fun a => if a = 0 then 0x80 else 0 } : State).display 0 :=
  (c8_drw_double { stateInit with memory := fun a => if a = 0 then 0x80 else 0 } 0 1 1
    (by decide) (by decide) (Or.inl (by decide)) (by decide) (by decide)
    (Or.inl (by decide)) (fun _ => Nat.zero_le 1)).1 0

end C8
